import Mathlib

/-!
Verification of the `ave3d` OpenGL 4.5 PBR renderer against its
natural-language specification.

The development shallowly embeds the host-side logic of the renderer
(`opengl.hpp` / `opengl.cpp` / `image.cpp`): GPU object names returned by the
`glCreate*` family are modelled as natural numbers drawn from a fresh-name
supply (the GL spec guarantees these names are nonzero), byte values and counts
as naturals, float uniform values as rationals evaluated exactly, and fallible
constructors as `Except`-returning functions.  Each C++ class that owns a GL
object becomes a Lean structure holding the same fields, and each member
function becomes a pure state-passing function translated line by line from
the source.
-/

namespace Ave3d

/-! ## Texture mip-level computation (`Texture::createTexture`, opengl.hpp)

The C++ source computes, when the `Levels` argument is 0 (unspecified):

  `mLevels = int(1. + log(std::max(Width, Height)) / log(2.f));`

`int(...)` truncates toward zero; since `1 + log2 m ≥ 0` for `m ≥ 1` this is
the floor, and over exact reals `⌊1 + log2 m⌋ = 1 + ⌊log2 m⌋`.
-/

/-- `⌊log2 n⌋` (0 for `n ≤ 1`), computed by repeated halving; the first
argument is fuel bounding the recursion depth, and any fuel `≥ n` gives the
exact value (each halving step of an `n ≥ 2` at least halves it). -/
def log2Aux : ℕ → ℕ → ℕ
  | 0, _ => 0
  | fuel + 1, n => if n ≤ 1 then 0 else 1 + log2Aux fuel (n / 2)

/-- Exact-real model of `int(1. + log(max(W,H)) / log(2.f))`: truncation of
`1 + log2 (max W H)`, i.e. `1 + ⌊log2 (max W H)⌋`. -/
def defaultLevels (Width Height : ℕ) : ℕ :=
  1 + log2Aux (max Width Height) (max Width Height)

/-- `Texture::createTexture`'s level count: the `Levels` argument when
positive, otherwise the default formula above. -/
def createTextureLevels (Width Height Levels : ℕ) : ℕ :=
  if Levels > 0 then Levels else defaultLevels Width Height

/-- Modelled from the spec's words (for comparison with the source-derived
`createTextureLevels`): "defaults to ⌈1 + log2(max(width,height))⌉", i.e.
`1 + ⌈log2 (max W H)⌉ = 1 + Nat.clog 2 (max W H)`. -/
def specClaimDefaultLevels (Width Height : ℕ) : ℕ :=
  1 + Nat.clog 2 (max Width Height)

/-! ## Environment constructor: specular prefilter loop (opengl.hpp)

```cpp
const float deltaRoughness = 1.0f / glm::max(float(this->GetLevels() - 1), 1.0f);
for (int level = 1, size = kEnvMapSize / 2; level <= this->GetLevels(); ++level, size /= 2)
{
    const GLuint numGroups = glm::max(1, size / 32);
    this->BindImageTexture(0, level, GL_TRUE, 0, GL_WRITE_ONLY, GL_RGBA16F);
    spmapProgram.SetFloat(0, level * deltaRoughness);
    ShaderProgram::DispatchCompute(numGroups, numGroups, 6);
}
```
-/

/-- `Environment::kEnvMapSize` (cubemap face size). -/
def kEnvMapSize : ℕ := 1024

/-- `Environment::kIrradianceMapSize`. -/
def kIrradianceMapSize : ℕ := 32

/-- `Environment::kBRDF_LUT_Size`. -/
def kBRDF_LUT_Size : ℕ := 256

/-- One specular-prefilter compute dispatch: the destination mip level bound
for writing, the roughness uniform set by `SetFloat(0, ...)` (modelled exactly
as a rational), and the three workgroup counts of `DispatchCompute`. -/
structure Dispatch where
  level : ℕ
  roughness : ℚ
  groupsX : ℕ
  groupsY : ℕ
  groupsZ : ℕ
deriving DecidableEq, Repr

/-- `deltaRoughness = 1.0f / glm::max(float(GetLevels() - 1), 1.0f)`, with the
signed `GetLevels() - 1` and the max evaluated exactly over ℚ. -/
def deltaRoughness (L : ℕ) : ℚ :=
  1 / max ((L : ℚ) - 1) 1

/-- The prefilter `for` loop, one constructor argument per loop variable
(`level`, `size`) plus enough fuel to cover every iteration; each pass of the
body emits the dispatch it issues and then advances `level + 1, size / 2`
exactly as the loop header does. -/
def prefilterFrom (L : ℕ) (dr : ℚ) : ℕ → ℕ → ℕ → List Dispatch
  | _, _, 0 => []
  | level, size, fuel + 1 =>
    if level ≤ L then
      Dispatch.mk level ((level : ℚ) * dr) (max 1 (size / 32)) (max 1 (size / 32)) 6
        :: prefilterFrom L dr (level + 1) (size / 2) fuel
    else []

/-- The full specular-prefilter pass of the `Environment` constructor for a
destination cubemap with `L` total mip levels: `level` starts at 1, `size`
starts at `kEnvMapSize / 2`, and the loop runs while `level ≤ L`. -/
def specularPrefilterDispatches (L : ℕ) : List Dispatch :=
  prefilterFrom L (deltaRoughness L) 1 (kEnvMapSize / 2) (L + 1)

/-- Modelled from the spec's words (for comparison with the source-derived
`specularPrefilterDispatches`): for each mip level 1..L a dispatch with
roughness `level × 1/(L−1)` (L−1 floored to at least 1) over a grid of
`(max(1, levelSize/32), max(1, levelSize/32), 6)` workgroups, where
`levelSize` starts at half the base face size and halves each level. -/
def specClaimPrefilter (L : ℕ) : List Dispatch :=
  (List.range L).map (fun i =>
    Dispatch.mk (i + 1) (((i + 1 : ℕ) : ℚ) * (1 / max ((L : ℚ) - 1) 1))
      (max 1 ((kEnvMapSize / 2) / 2 ^ i / 32)) (max 1 ((kEnvMapSize / 2) / 2 ^ i / 32)) 6)

/-! ## `PbrMesh` constructor texture selection (opengl.hpp)

```cpp
auto albedoFileName = "textures/" + MeshPtr->textureName(Mesh::TextureType::Albedo);
if (albedoFileName.empty()) { ... 1x1 fallback ... }
else { mAlbedo = Texture{ Image::fromFile(albedoFileName, 4), ... }; }
```
and analogously for normals / metalness / roughness.
-/

/-- How a `PbrMesh` material texture is produced: either a 1×1 constant-color
fallback with the given byte values, or a file load with the given path and
requested channel count. -/
inductive TexSource where
  | fallback (pix : List ℕ)
  | load (path : String) (channels : ℕ)
deriving DecidableEq, Repr

/-- Albedo branch of the `PbrMesh` constructor: the mesh's albedo texture
name is prefixed with `"textures/"` first, and the emptiness test is applied
to the prefixed string. -/
def albedoTexSource (textureName : String) : TexSource :=
  let albedoFileName := "textures/" ++ textureName
  if albedoFileName.isEmpty then TexSource.fallback [128, 128, 128, 255]
  else TexSource.load albedoFileName 4

/-- Normal-map branch of the `PbrMesh` constructor. -/
def normalsTexSource (textureName : String) : TexSource :=
  let normalsFileName := "textures/" ++ textureName
  if normalsFileName.isEmpty then TexSource.fallback [0, 0, 255]
  else TexSource.load normalsFileName 3

/-- Metalness branch of the `PbrMesh` constructor. -/
def metalnessTexSource (textureName : String) : TexSource :=
  let metalnessFileName := "textures/" ++ textureName
  if metalnessFileName.isEmpty then TexSource.fallback [128]
  else TexSource.load metalnessFileName 1

/-- Roughness branch of the `PbrMesh` constructor. -/
def roughnessTexSource (textureName : String) : TexSource :=
  let roughnessFileName := "textures/" ++ textureName
  if roughnessFileName.isEmpty then TexSource.fallback [128]
  else TexSource.load roughnessFileName 1

/-! ## `Image::fromFile` (image.cpp) -/

/-- What an `stbi_load` / `stbi_loadf` call reports: the decoded width,
height, the channel count actually present in the file, and the pixel buffer
(`none` models a decode failure returning a null pointer; the buffer itself
is opaque, represented by a token). -/
structure StbiResult where
  width : ℤ
  height : ℤ
  channels : ℤ
  pixels : Option ℕ
deriving DecidableEq, Repr

/-- The `Image` object built by `Image::fromFile` (fields of `class Image`). -/
structure ImageS where
  m_width : ℤ
  m_height : ℤ
  m_channels : ℤ
  m_hdr : Bool
  m_pixels : Option ℕ
deriving DecidableEq, Repr

/-- `Image::fromFile(filename, channels)`.  `isHdr` is the result of
`stbi_is_hdr`, `decode` what the selected stbi loader reports.  On a
successful decode the image takes the loader's out-parameters and the HDR
flag; afterwards a positive requested `channels` overwrites `m_channels`;
a null pixel pointer raises the runtime error. -/
def Image.fromFile (filename : String) (isHdr : Bool) (decode : StbiResult)
    (channels : ℤ) : Except String ImageS :=
  let image : ImageS := ImageS.mk 0 0 0 false none
  let image :=
    match decode.pixels with
    | some p => ImageS.mk decode.width decode.height decode.channels isHdr (some p)
    | none => image
  let image :=
    if channels > 0 then { image with m_channels := channels } else image
  if image.m_pixels.isNone then
    Except.error ("Failed to load image file: " ++ filename)
  else
    Except.ok image

/-! ## GPU handle wrappers (opengl.hpp)

GL object names returned by `glCreateShader`, `glCreateProgram`,
`glCreateTextures`, `glCreateRenderbuffers`, `glCreateFramebuffers` and
`glCreateBuffers` are modelled by a fresh-name supply: a constructor that
allocates takes a `fresh : ℕ` and uses `fresh + 1` as the new name, which is
what the GL specification guarantees (a returned name is never 0).  Deleting
name 0 is a GL no-op, so `glDelete*` is modelled as erasing the wrapper's
field only.
-/

/-- `class Shader` state: the `mShader` GL name. -/
structure ShaderH where
  mShader : ℕ
deriving DecidableEq, Repr

namespace ShaderH

/-- `Shader::IsUsable() { return 0 != mShader; }` -/
def IsUsable (s : ShaderH) : Bool := s.mShader != 0

/-- The `Shader(GLenum, std::string)` constructor: `mShader` is the (nonzero)
name from `glCreateShader`; `compileOk` is the `GL_COMPILE_STATUS` the driver
reports, `infoLog` its compiler log.  On failure the constructor prints the
diagnostic (returned here as the list of emitted log lines) and does nothing
else — `mShader` keeps the created name. -/
def construct (typeName : String) (compileOk : Bool) (infoLog : String)
    (fresh : ℕ) : ShaderH × List String :=
  let mShader := fresh + 1
  if compileOk then
    (ShaderH.mk mShader, [])
  else
    (ShaderH.mk mShader,
      ["ERROR:shader compilation failed: " ++ typeName ++ ": " ++ infoLog])

/-- `Shader` move constructor: takes the source's name, zeroes the source.
Returns (moved-to, moved-from). -/
def moveCtor (other : ShaderH) : ShaderH × ShaderH :=
  (ShaderH.mk other.mShader, ShaderH.mk 0)

/-- `Shader::Release()`: `glDeleteShader(mShader); mShader = 0;`. -/
def Release (_ : ShaderH) : ShaderH := ShaderH.mk 0

end ShaderH

/-- `class ShaderProgram` state: the `mProgram` GL name. -/
structure ShaderProgramH where
  mProgram : ℕ
deriving DecidableEq, Repr

namespace ShaderProgramH

/-- `ShaderProgram::IsUsable() { return 0 != mProgram; }` -/
def IsUsable (p : ShaderProgramH) : Bool := p.mProgram != 0

/-- `ShaderProgram()` default constructor: `mProgram = 0`. -/
def default : ShaderProgramH := ShaderProgramH.mk 0

/-- The `ShaderProgram(const List&)` constructor: `mProgram` is the (nonzero)
name from `glCreateProgram`; after attaching the shaders and linking,
`linkOk` is the `GL_LINK_STATUS` the driver reports.  On failure the
constructor prints the program info log and does nothing else — `mProgram`
keeps the created name. -/
def construct (linkOk : Bool) (infoLog : String) (fresh : ℕ) :
    ShaderProgramH × List String :=
  let mProgram := fresh + 1
  if linkOk then
    (ShaderProgramH.mk mProgram, [])
  else
    (ShaderProgramH.mk mProgram,
      ["ERROR: shader program compilation failed: " ++ infoLog])

/-- `ShaderProgram` move constructor. Returns (moved-to, moved-from). -/
def moveCtor (other : ShaderProgramH) : ShaderProgramH × ShaderProgramH :=
  (ShaderProgramH.mk other.mProgram, ShaderProgramH.mk 0)

/-- `ShaderProgram::Release()`. -/
def Release (_ : ShaderProgramH) : ShaderProgramH := ShaderProgramH.mk 0

end ShaderProgramH

/-- `class RenderTarget` state: `mId`, `mWidth`, `mHeight`. -/
structure RenderTargetH where
  mId : ℕ
  mWidth : ℕ
  mHeight : ℕ
deriving DecidableEq, Repr

namespace RenderTargetH

/-- `RenderTarget::IsUsable() { return 0 != mId; }` -/
def IsUsable (r : RenderTargetH) : Bool := r.mId != 0

/-- `RenderTarget()` default constructor: all fields zero. -/
def default : RenderTargetH := RenderTargetH.mk 0 0 0

/-- `RenderTarget` move constructor: copies all fields, zeroes the source.
Returns (moved-to, moved-from). -/
def moveCtor (other : RenderTargetH) : RenderTargetH × RenderTargetH :=
  (RenderTargetH.mk other.mId other.mWidth other.mHeight, RenderTargetH.mk 0 0 0)

/-- `RenderTarget::Release()`: zeroes id and dimensions. -/
def Release (_ : RenderTargetH) : RenderTargetH := RenderTargetH.mk 0 0 0

end RenderTargetH

/-- `class Texture` state: the `RenderTarget` base plus `mLevels`. -/
structure TextureH where
  base : RenderTargetH
  mLevels : ℕ
deriving DecidableEq, Repr

namespace TextureH

/-- Inherited `RenderTarget::IsUsable`. -/
def IsUsable (t : TextureH) : Bool := t.base.IsUsable

/-- `Texture()` default constructor: `RenderTarget()` then `mLevels = 0`. -/
def default : TextureH := TextureH.mk RenderTargetH.default 0

/-- `Texture` move constructor: moves the base (zeroing the source's), copies
`mLevels` and zeroes the source's. Returns (moved-to, moved-from). -/
def moveCtor (other : TextureH) : TextureH × TextureH :=
  (TextureH.mk (other.base.moveCtor).1 other.mLevels,
   TextureH.mk (other.base.moveCtor).2 0)

/-- `Texture::Release()`: the deletion and `RenderTarget::Release()` run only
when `mId != 0`; `mLevels = 0` runs unconditionally. -/
def Release (t : TextureH) : TextureH :=
  let t := if t.base.mId != 0 then TextureH.mk t.base.Release t.mLevels else t
  { t with mLevels := 0 }

/-- `Texture::createTexture`: allocates a name and stores dimensions and the
level count computed by `createTextureLevels`. -/
def createTexture (Width Height Levels fresh : ℕ) : TextureH :=
  TextureH.mk (RenderTargetH.mk (fresh + 1) Width Height)
    (createTextureLevels Width Height Levels)

end TextureH

/-- `class Environment` state: the `Texture` base plus the two auxiliary
textures `mIrmap` and `mSpBrdfLut`. -/
structure EnvironmentH where
  base : TextureH
  mIrmap : TextureH
  mSpBrdfLut : TextureH
deriving DecidableEq, Repr

namespace EnvironmentH

/-- Inherited `RenderTarget::IsUsable`. -/
def IsUsable (e : EnvironmentH) : Bool := e.base.IsUsable

/-- `Environment()` default constructor: `Texture()` base, default members. -/
def default : EnvironmentH :=
  EnvironmentH.mk TextureH.default TextureH.default TextureH.default

/-- `Environment` move constructor: moves base and both members.
Returns (moved-to, moved-from). -/
def moveCtor (other : EnvironmentH) : EnvironmentH × EnvironmentH :=
  (EnvironmentH.mk (other.base.moveCtor).1 (other.mIrmap.moveCtor).1
     (other.mSpBrdfLut.moveCtor).1,
   EnvironmentH.mk (other.base.moveCtor).2 (other.mIrmap.moveCtor).2
     (other.mSpBrdfLut.moveCtor).2)

/-- `Environment::Release()`: `Texture::Release()` then release of the two
member textures. -/
def Release (e : EnvironmentH) : EnvironmentH :=
  EnvironmentH.mk e.base.Release e.mIrmap.Release e.mSpBrdfLut.Release

end EnvironmentH

/-- `class Renderbuffer` state: just the `RenderTarget` base. -/
structure RenderbufferH where
  base : RenderTargetH
deriving DecidableEq, Repr

namespace RenderbufferH

/-- Inherited `RenderTarget::IsUsable`. -/
def IsUsable (r : RenderbufferH) : Bool := r.base.IsUsable

/-- `Renderbuffer()` default constructor: `RenderTarget()` then
`glCreateRenderbuffers(1, &mId)` — the id is a fresh nonzero name. -/
def defaultCtor (fresh : ℕ) : RenderbufferH :=
  RenderbufferH.mk (RenderTargetH.mk (fresh + 1) 0 0)

/-- `Renderbuffer` move constructor. Returns (moved-to, moved-from). -/
def moveCtor (other : RenderbufferH) : RenderbufferH × RenderbufferH :=
  (RenderbufferH.mk (other.base.moveCtor).1, RenderbufferH.mk (other.base.moveCtor).2)

/-- `Renderbuffer::Release()`: deletion and `RenderTarget::Release()` only
when `mId != 0`. -/
def Release (r : RenderbufferH) : RenderbufferH :=
  if r.base.mId != 0 then RenderbufferH.mk r.base.Release else r

/-- `Renderbuffer::Storage`: stores the requested dimensions. -/
def Storage (r : RenderbufferH) (Width Height : ℕ) : RenderbufferH :=
  RenderbufferH.mk (RenderTargetH.mk r.base.mId Width Height)

end RenderbufferH

/-- `template<class T> class UniformBuffer` state: the `mId` GL name (the
mirrored CPU value `mData` is carried separately where needed). -/
structure UniformBufferH where
  mId : ℕ
deriving DecidableEq, Repr

namespace UniformBufferH

/-- `UniformBuffer()` default constructor: `mId = 0`. -/
def default : UniformBufferH := UniformBufferH.mk 0

/-- Spec §3 invariant: a handle is usable iff its identifier is nonzero
(`UniformBuffer` itself declares no `IsUsable`). -/
def usable (u : UniformBufferH) : Bool := u.mId != 0

/-- `UniformBuffer` move constructor. Returns (moved-to, moved-from). -/
def moveCtor (other : UniformBufferH) : UniformBufferH × UniformBufferH :=
  (UniformBufferH.mk other.mId, UniformBufferH.mk 0)

/-- `UniformBuffer::Release()`: `glDeleteBuffers(1, &mId); mId = 0;`. -/
def Release (_ : UniformBufferH) : UniformBufferH := UniformBufferH.mk 0

end UniformBufferH

/-- `class MeshGeometry` state: `mEmpty`, `mVbo`, `mIbo`, `mVao`,
`mNumElements`. -/
structure MeshGeometryH where
  mEmpty : Bool
  mVbo : ℕ
  mIbo : ℕ
  mVao : ℕ
  mNumElements : ℕ
deriving DecidableEq, Repr

namespace MeshGeometryH

/-- `MeshGeometry()` default constructor: all fields zero / false. -/
def default : MeshGeometryH := MeshGeometryH.mk false 0 0 0 0

/-- Spec §3 invariant: usable iff the identifier (the vertex-array object
name, the handle every draw binds) is nonzero (`MeshGeometry` itself declares
no `IsUsable`). -/
def usable (m : MeshGeometryH) : Bool := m.mVao != 0

/-- `MeshGeometry` move constructor: copies every field and zeroes the
source's. Returns (moved-to, moved-from). -/
def moveCtor (other : MeshGeometryH) : MeshGeometryH × MeshGeometryH :=
  (MeshGeometryH.mk other.mEmpty other.mVbo other.mIbo other.mVao other.mNumElements,
   MeshGeometryH.mk false 0 0 0 0)

/-- `MeshGeometry::Release()`: each buffer deleted and zeroed only when
nonzero; `mNumElements` and `mEmpty` always cleared. -/
def Release (m : MeshGeometryH) : MeshGeometryH :=
  let mVao := if m.mVao != 0 then 0 else m.mVao
  let mVbo := if m.mVbo != 0 then 0 else m.mVbo
  let mIbo := if m.mIbo != 0 then 0 else m.mIbo
  MeshGeometryH.mk false mVbo mIbo mVao 0

end MeshGeometryH

/-! ## `class Framebuffer` (opengl.hpp)

`mRenderbuffers` maps attachment points to the attached render-target object,
`mRbParams` to the creation parameters stored by `AttachRenderbuffer` /
`AttachTexture`; both `std::unordered_map`s are modelled as association
lists where assignment replaces the entry for an existing key.  The GL
fresh-name supply used when a render target is (re)created is threaded
through the framebuffer state as `nextName`, and each
`AttachTo(mId, Attachment)` call the framebuffer issues is recorded in
`attachLog` (newest first). -/

/-- `Framebuffer::RenderTargetType`. -/
inductive RTKind where
  | typeRenderBuffer
  | typeTexture
deriving DecidableEq, Repr

/-- One entry of `mRbParams`: the tuple `(type, format, samples)`. -/
structure RTParams where
  kind : RTKind
  format : ℕ
  samples : ℕ
deriving DecidableEq, Repr

/-- A concrete render-target object held in `mRenderbuffers`: its GL name,
how it was created (variant kind, internal format, sample count) and its
storage dimensions. -/
structure RenderTargetObj where
  id : ℕ
  kind : RTKind
  format : ℕ
  samples : ℕ
  width : ℕ
  height : ℕ
deriving DecidableEq, Repr

/-- Association-list lookup (`std::unordered_map::count` / `at`). -/
def lookupA {α : Type} (l : List (ℕ × α)) (k : ℕ) : Option α :=
  (l.find? (fun p => p.1 == k)).map Prod.snd

/-- Association-list assignment (`map[k] = v` replaces any existing entry). -/
def insertA {α : Type} (l : List (ℕ × α)) (k : ℕ) (v : α) : List (ℕ × α) :=
  (k, v) :: l.filter (fun p => p.1 != k)

/-- `class Framebuffer` state. -/
structure FramebufferH where
  mId : ℕ
  mRenderbuffers : List (ℕ × RenderTargetObj)
  mRbParams : List (ℕ × RTParams)
  nextName : ℕ
  attachLog : List (ℕ × ℕ)
deriving DecidableEq, Repr

namespace FramebufferH

/-- `Framebuffer()` default constructor: `glCreateFramebuffers` yields a
fresh nonzero name; both maps start empty. -/
def defaultCtor (fresh : ℕ) : FramebufferH :=
  FramebufferH.mk (fresh + 1) [] [] (fresh + 1) []

/-- Spec §3 invariant: usable iff the identifier is nonzero (`Framebuffer`
itself declares no `IsUsable`). -/
def usable (fb : FramebufferH) : Bool := fb.mId != 0

/-- `Framebuffer` move constructor: only `mId` is transferred — the member
maps of the destination are default-constructed and the source keeps its
maps. Returns (moved-to, moved-from). -/
def moveCtor (other : FramebufferH) : FramebufferH × FramebufferH :=
  (FramebufferH.mk other.mId [] [] other.nextName [],
   { other with mId := 0 })

/-- `Framebuffer::Release()`: only when `mId != 0`, clears `mRenderbuffers`
(not `mRbParams`), deletes the GL object and zeroes `mId`. -/
def Release (fb : FramebufferH) : FramebufferH :=
  if fb.mId != 0 then { fb with mRenderbuffers := [], mId := 0 } else fb

/-- `Framebuffer::recreateIfNeeded(Attachment, Width, Height)`: when the
attachment is absent or its stored dimensions differ from the request, a new
render target is built from the stored creation parameters (a fresh GL name,
`Storage` with the requested dimensions) and attached; otherwise nothing
happens. -/
def recreateIfNeeded (fb : FramebufferH) (Attachment Width Height : ℕ) :
    FramebufferH :=
  let stale :=
    match lookupA fb.mRenderbuffers Attachment with
    | none => true
    | some rt => rt.width != Width || rt.height != Height
  if stale then
    let params := (lookupA fb.mRbParams Attachment).getD
      (RTParams.mk RTKind.typeRenderBuffer 0 0)
    let newId := fb.nextName + 1
    let obj := RenderTargetObj.mk newId params.kind params.format params.samples
      Width Height
    { fb with
      mRenderbuffers := insertA fb.mRenderbuffers Attachment obj
      nextName := newId
      attachLog := (Attachment, newId) :: fb.attachLog }
  else fb

/-- `Framebuffer::AttachRenderbuffer`: stores
`(TypeRenderBuffer, Format, Samples)` in `mRbParams`, then
`recreateIfNeeded` (the `updateDrawBuffers` call touches no modelled
state). -/
def AttachRenderbuffer (fb : FramebufferH)
    (Attachment Format Width Height Samples : ℕ) : FramebufferH :=
  let fb := { fb with
    mRbParams := insertA fb.mRbParams Attachment
      (RTParams.mk RTKind.typeRenderBuffer Format Samples) }
  recreateIfNeeded fb Attachment Width Height

/-- `Framebuffer::AttachTexture`: stores `(TypeTexture, Format, 0)` in
`mRbParams`, then `recreateIfNeeded`. -/
def AttachTexture (fb : FramebufferH) (Attachment Format Width Height : ℕ) :
    FramebufferH :=
  let fb := { fb with
    mRbParams := insertA fb.mRbParams Attachment
      (RTParams.mk RTKind.typeTexture Format 0) }
  recreateIfNeeded fb Attachment Width Height

/-- `Framebuffer::ResizeAll`: `recreateIfNeeded` on every attachment point
currently present in `mRenderbuffers`. -/
def ResizeAll (fb : FramebufferH) (Width Height : ℕ) : FramebufferH :=
  (fb.mRenderbuffers.map Prod.fst).foldl
    (fun acc att => recreateIfNeeded acc att Width Height) fb

end FramebufferH

/-! ## Per-frame shading-uniform update (`Renderer::render`, opengl.cpp)

```cpp
for (int i = 0; i < SceneSettings::NumLights; ++i)
{
    const SceneSettings::Light& light = scene.lights[i];
    shadingUniforms.lights[i].direction = glm::vec4{light.direction, 0.0f};
    shadingUniforms.lights[i].radiance = light.enabled ? glm::vec4{light.radiance, 0.0f} : glm::vec4{};
}
mShadingUB.Bind(1);
```
The loop runs over every slot index; `glm::vec4{}` value-initializes to the
zero vector.  Components are modelled as exact rationals.
-/

/-- `glm::vec3`. -/
structure Vec3 where
  x : ℚ
  y : ℚ
  z : ℚ
deriving DecidableEq, Repr

/-- `glm::vec4`. -/
structure Vec4 where
  x : ℚ
  y : ℚ
  z : ℚ
  w : ℚ
deriving DecidableEq, Repr

/-- `glm::vec4{v, w}`. -/
def vec4of (v : Vec3) (w : ℚ) : Vec4 := Vec4.mk v.x v.y v.z w

/-- `glm::vec4{}` — the zero vector. -/
def vec4zero : Vec4 := Vec4.mk 0 0 0 0

/-- `SceneSettings::Light`. -/
structure Light where
  direction : Vec3
  radiance : Vec3
  enabled : Bool

/-- One `lights[i]` slot of `ShadingUB`. -/
structure LightSlot where
  direction : Vec4
  radiance : Vec4
deriving DecidableEq, Repr

/-- `SceneSettings::NumLights` (three directional lights, cf. the three
`m_sceneSettings.lights[0..2]` of application.cpp). -/
def NumLights : ℕ := 3

/-- The light-slot contents of the shading uniform buffer written by
`Renderer::render` and uploaded by the immediately following
`mShadingUB.Bind(1)`: slot `i` receives the configured direction (as a vec4
with w = 0) and, depending on the enabled flag, either the configured
radiance or the zero vector. -/
def renderLightSlots (lights : Fin NumLights → Light) : Fin NumLights → LightSlot :=
  fun i =>
    LightSlot.mk (vec4of (lights i).direction 0)
      (if (lights i).enabled then vec4of (lights i).radiance 0 else vec4zero)

/-- The light configuration `Application::Application` installs: directions
(−1,0,0), (1,0,0), (0,−1,0) (already unit length), radiance (1,1,1), all
three disabled. -/
def appLights : Fin NumLights → Light :=
  fun i =>
    if i.val = 0 then Light.mk (Vec3.mk (-1) 0 0) (Vec3.mk 1 1 1) false
    else if i.val = 1 then Light.mk (Vec3.mk 1 0 0) (Vec3.mk 1 1 1) false
    else Light.mk (Vec3.mk 0 (-1) 0) (Vec3.mk 1 1 1) false

/-!
# Theorems
-/

/-- `log2Aux` with sufficient fuel computes the floor base-2 logarithm:
for `1 ≤ n ≤ fuel`, `2 ^ log2Aux fuel n ≤ n < 2 ^ (log2Aux fuel n + 1)`. -/
theorem log2Aux_pow_bounds :
    ∀ fuel n : ℕ, 1 ≤ n → n ≤ fuel →
      2 ^ log2Aux fuel n ≤ n ∧ n < 2 ^ (log2Aux fuel n + 1) := by
  intro fuel
  induction fuel with
  | zero => intro n h1 h0; omega
  | succ fuel ih =>
    intro n h1 hle
    by_cases hsmall : n ≤ 1
    · have hn1 : n = 1 := by omega
      subst hn1
      simp [log2Aux]
    · have ih2 := ih (n / 2) (by omega) (by omega)
      rcases ih2 with ⟨hlo, hhi⟩
      rw [log2Aux, if_neg hsmall]
      have hmod := Nat.div_add_mod n 2
      have hm2 : n % 2 < 2 := Nat.mod_lt _ (by omega)
      constructor
      · have hps : (2 : ℕ) ^ (1 + log2Aux fuel (n / 2)) =
            2 * 2 ^ log2Aux fuel (n / 2) := by ring
        omega
      · have hps : (2 : ℕ) ^ (1 + log2Aux fuel (n / 2) + 1) =
            2 * 2 ^ (log2Aux fuel (n / 2) + 1) := by ring
        omega

/-- C2 (counterexample): the claim "stored level count equals
⌈1 + log2(max(width, height))⌉" fails at width = height = 3: the source's
truncation `int(1. + log(3)/log(2))` yields 2, the claimed ceiling yields 3. -/
theorem default_levels_ceiling_counterexample :
    createTextureLevels 3 3 0 ≠ specClaimDefaultLevels 3 3 := by
  have hcode : createTextureLevels 3 3 0 = 2 := by decide
  have hc1 : Nat.clog 2 3 ≤ 2 :=
    (Nat.le_pow_iff_clog_le (by norm_num)).mp (by norm_num)
  have hc2 : 1 < Nat.clog 2 3 :=
    (Nat.pow_lt_iff_lt_clog (by norm_num)).mp (by norm_num)
  have hspec : specClaimDefaultLevels 3 3 = 1 + Nat.clog 2 3 := by
    unfold specClaimDefaultLevels
    rw [Nat.max_self]
  omega

/-- C2 (amended): for every texture created without an explicit mip-level
count, the stored level count is the truncation ⌊1 + log2(max(width,
height))⌋ — equivalently the `L` with `2^(L−1) ≤ max(width, height) < 2^L` —
not the ceiling; for width = height = 1024 this still gives 11. -/
theorem default_levels_floor :
    (∀ Width Height : ℕ, 1 ≤ max Width Height →
      2 ^ (createTextureLevels Width Height 0 - 1) ≤ max Width Height ∧
      max Width Height < 2 ^ createTextureLevels Width Height 0) ∧
    createTextureLevels 1024 1024 0 = 11 := by
  constructor
  · intro W H hpos
    have hb := log2Aux_pow_bounds (max W H) (max W H) hpos le_rfl
    have hL : createTextureLevels W H 0 =
        1 + log2Aux (max W H) (max W H) := by
      unfold createTextureLevels defaultLevels
      rw [if_neg (by omega)]
    rw [hL]
    have h1 : 1 + log2Aux (max W H) (max W H) - 1 =
        log2Aux (max W H) (max W H) := by omega
    have h2 : 1 + log2Aux (max W H) (max W H) =
        log2Aux (max W H) (max W H) + 1 := by omega
    rw [h1, h2]
    exact hb
  · decide

/-- C2 (witness): the amended theorem applied at width = height = 1024. -/
theorem default_levels_floor_witness :
    1 ≤ max 1024 1024 ∧
    (2 ^ (createTextureLevels 1024 1024 0 - 1) ≤ max 1024 1024 ∧
      max 1024 1024 < 2 ^ createTextureLevels 1024 1024 0) :=
  ⟨by decide, default_levels_floor.1 1024 1024 (by decide)⟩

/-- C3 (code bug evaluated at the failing input): the `PbrMesh` constructor
prefixes the per-type texture name with `"textures/"` before testing
emptiness, so for an empty texture name every branch still attempts a file
load of the bare directory prefix instead of binding the 1×1 fallback — and
no texture name whatsoever can reach the fallback branch. -/
theorem pbr_empty_name_attempts_load :
    albedoTexSource "" = TexSource.load "textures/" 4 ∧
    normalsTexSource "" = TexSource.load "textures/" 3 ∧
    metalnessTexSource "" = TexSource.load "textures/" 1 ∧
    roughnessTexSource "" = TexSource.load "textures/" 1 ∧
    ∀ s : String, albedoTexSource s ≠ TexSource.fallback [128, 128, 128, 255] := by
  refine ⟨rfl, rfl, rfl, rfl, ?_⟩
  intro s
  unfold albedoTexSource
  have hne : ("textures/" ++ s).isEmpty = false := by
    rcases h : ("textures/" ++ s).isEmpty with _ | _
    · rfl
    · exfalso
      have he : ("textures/" ++ s) = "" := (String.isEmpty_iff _).mp h
      have hlen := congrArg String.length he
      rw [String.length_append] at hlen
      have h9 : "textures/".length = 9 := rfl
      have h0 : "".length = 0 := rfl
      rw [h9, h0] at hlen
      omega
  simp [hne]

/-- C4 (counterexample): the claim "the resulting object is left non-usable,
i.e. IsUsable() returns false" fails at a concrete failing compile and a
concrete failing link: `glCreateShader` / `glCreateProgram` returned a
nonzero name, and a failed compile or link does not clear it, so
`IsUsable()` still returns true. -/
theorem failed_compile_usable_counterexample :
    (ShaderH.construct "vertex shader" false "syntax error" 0).1.IsUsable = true ∧
    (ShaderProgramH.construct false "link error" 0).1.IsUsable = true :=
  ⟨rfl, rfl⟩

/-- C4 (amended): every failed shader compile and failed program link is
logged with its diagnostic text, but the resulting object still reports
IsUsable() = true (the nonzero created name is retained), so a caller
checking usability does not detect the failure. -/
theorem failed_compile_logged_but_usable :
    ∀ (typeName infoLog : String) (ok : Bool) (fresh : ℕ),
      (ShaderH.construct typeName ok infoLog fresh).1.IsUsable = true ∧
      (ok = false → (ShaderH.construct typeName ok infoLog fresh).2 =
        ["ERROR:shader compilation failed: " ++ typeName ++ ": " ++ infoLog]) ∧
      (ShaderProgramH.construct ok infoLog fresh).1.IsUsable = true ∧
      (ok = false → (ShaderProgramH.construct ok infoLog fresh).2 =
        ["ERROR: shader program compilation failed: " ++ infoLog]) := by
  intro typeName infoLog ok fresh
  cases ok <;>
    simp [ShaderH.construct, ShaderH.IsUsable, ShaderProgramH.construct,
      ShaderProgramH.IsUsable]

/-- C4 (witness): the amended theorem applied to a failing vertex-shader
compile. -/
theorem failed_compile_logged_but_usable_witness :
    (false = false) ∧
    (ShaderH.construct "vertex shader" false "syntax error" 0).2 =
      ["ERROR:shader compilation failed: " ++ "vertex shader" ++ ": " ++
        "syntax error"] :=
  ⟨rfl,
    (failed_compile_logged_but_usable "vertex shader" "syntax error" false 0).2.1 rfl⟩

/-- C9: whenever `Image::fromFile` is called with a positive requested
channel count and returns successfully, the returned image's channel count
equals the requested one — the count reported by the decoder is overwritten
after the decode. -/
theorem fromFile_channels_overridden :
    ∀ (filename : String) (isHdr : Bool) (decode : StbiResult) (channels : ℤ)
      (img : ImageS),
      0 < channels →
      Image.fromFile filename isHdr decode channels = Except.ok img →
      img.m_channels = channels := by
  intro filename isHdr decode channels img hch hok
  unfold Image.fromFile at hok
  rcases hp : decode.pixels with _ | p
  · rw [hp] at hok
    simp [hch] at hok
  · rw [hp] at hok
    simp only [Option.isNone_some, if_pos hch, Bool.false_eq_true, if_false,
      reduceIte, Except.ok.injEq] at hok
    rw [← hok]

/-- C9 (witness): the theorem applied to a 4-channel HDR decode requested
with 3 channels. -/
theorem fromFile_channels_overridden_witness :
    (0 : ℤ) < 3 ∧ (ImageS.mk 4 2 3 true (some 7)).m_channels = 3 :=
  ⟨by norm_num,
    fromFile_channels_overridden "environment.hdr" true (StbiResult.mk 4 2 4 (some 7)) 3
      (ImageS.mk 4 2 3 true (some 7)) (by norm_num) (by rfl)⟩

/-- Association-list lookup immediately after an assignment of the same key
returns the assigned value. -/
theorem lookupA_insertA_self {α : Type} (l : List (ℕ × α)) (k : ℕ) (v : α) :
    lookupA (insertA l k v) k = some v := by
  unfold lookupA insertA
  rw [List.find?_cons_of_pos]
  · rfl
  · simp

/-- `recreateIfNeeded` on an attachment point with no current target builds a
fresh target from the stored parameters and attaches it. -/
theorem recreateIfNeeded_fresh (fb : FramebufferH) (att w h : ℕ) (P : RTParams)
    (hnone : lookupA fb.mRenderbuffers att = none)
    (hp : lookupA fb.mRbParams att = some P) :
    fb.recreateIfNeeded att w h =
      { fb with
        mRenderbuffers := insertA fb.mRenderbuffers att
          (RenderTargetObj.mk (fb.nextName + 1) P.kind P.format P.samples w h),
        nextName := fb.nextName + 1,
        attachLog := (att, fb.nextName + 1) :: fb.attachLog } := by
  unfold FramebufferH.recreateIfNeeded
  simp [hnone, hp]

/-- `recreateIfNeeded` at the currently stored dimensions changes nothing. -/
theorem recreateIfNeeded_noop (fb : FramebufferH) (att : ℕ)
    (rt : RenderTargetObj)
    (hrt : lookupA fb.mRenderbuffers att = some rt) :
    fb.recreateIfNeeded att rt.width rt.height = fb := by
  unfold FramebufferH.recreateIfNeeded
  simp [hrt]

/-- `recreateIfNeeded` at dimensions differing from the stored ones replaces
the target with a fresh one built from the stored parameters and attaches
it. -/
theorem recreateIfNeeded_stale (fb : FramebufferH) (att w h : ℕ)
    (rt : RenderTargetObj) (P : RTParams)
    (hrt : lookupA fb.mRenderbuffers att = some rt)
    (hdim : rt.width ≠ w ∨ rt.height ≠ h)
    (hp : lookupA fb.mRbParams att = some P) :
    fb.recreateIfNeeded att w h =
      { fb with
        mRenderbuffers := insertA fb.mRenderbuffers att
          (RenderTargetObj.mk (fb.nextName + 1) P.kind P.format P.samples w h),
        nextName := fb.nextName + 1,
        attachLog := (att, fb.nextName + 1) :: fb.attachLog } := by
  unfold FramebufferH.recreateIfNeeded
  have hstale : (rt.width != w || rt.height != h) = true := by
    rcases hdim with h' | h' <;> simp [bne_iff_ne, h']
  simp [hrt, hstale, hp]

/-- `AttachRenderbuffer` on a previously empty attachment point stores the
parameters and creates and attaches the target. -/
theorem AttachRenderbuffer_first (fb : FramebufferH)
    (att fmt w h samples : ℕ)
    (hnone : lookupA fb.mRenderbuffers att = none) :
    fb.AttachRenderbuffer att fmt w h samples =
      { fb with
        mRbParams := insertA fb.mRbParams att
          (RTParams.mk RTKind.typeRenderBuffer fmt samples),
        mRenderbuffers := insertA fb.mRenderbuffers att
          (RenderTargetObj.mk (fb.nextName + 1) RTKind.typeRenderBuffer fmt
            samples w h),
        nextName := fb.nextName + 1,
        attachLog := (att, fb.nextName + 1) :: fb.attachLog } := by
  unfold FramebufferH.AttachRenderbuffer
  exact recreateIfNeeded_fresh
    { fb with mRbParams := insertA fb.mRbParams att (RTParams.mk RTKind.typeRenderBuffer fmt samples) }
    att w h (RTParams.mk RTKind.typeRenderBuffer fmt samples) hnone
    (lookupA_insertA_self _ _ _)

/-- `AttachTexture` on a previously empty attachment point stores the
parameters and creates and attaches the target. -/
theorem AttachTexture_first (fb : FramebufferH) (att fmt w h : ℕ)
    (hnone : lookupA fb.mRenderbuffers att = none) :
    fb.AttachTexture att fmt w h =
      { fb with
        mRbParams := insertA fb.mRbParams att
          (RTParams.mk RTKind.typeTexture fmt 0),
        mRenderbuffers := insertA fb.mRenderbuffers att
          (RenderTargetObj.mk (fb.nextName + 1) RTKind.typeTexture fmt 0 w h),
        nextName := fb.nextName + 1,
        attachLog := (att, fb.nextName + 1) :: fb.attachLog } := by
  unfold FramebufferH.AttachTexture
  exact recreateIfNeeded_fresh
    { fb with mRbParams := insertA fb.mRbParams att (RTParams.mk RTKind.typeTexture fmt 0) }
    att w h (RTParams.mk RTKind.typeTexture fmt 0) hnone
    (lookupA_insertA_self _ _ _)

/-- C5: for an attachment first attached at size (w, h) — as a renderbuffer
or as a texture — a later resize request to the same (w, h) leaves the
framebuffer state (in particular the underlying target object) unchanged,
while a resize to a different size allocates a new target (fresh GL name,
different from the old one) built from the creation parameters stored at
first attach, and re-attaches it. -/
theorem attachment_resize_semantics :
    ∀ (fb : FramebufferH) (att fmt w h samples w2 h2 : ℕ),
      lookupA fb.mRenderbuffers att = none →
      ¬(w2 = w ∧ h2 = h) →
      (lookupA (fb.AttachRenderbuffer att fmt w h samples).mRenderbuffers att =
        some (RenderTargetObj.mk (fb.nextName + 1) RTKind.typeRenderBuffer fmt
          samples w h) ∧
       (fb.AttachRenderbuffer att fmt w h samples).recreateIfNeeded att w h =
        fb.AttachRenderbuffer att fmt w h samples ∧
       lookupA ((fb.AttachRenderbuffer att fmt w h samples).recreateIfNeeded
          att w2 h2).mRenderbuffers att =
        some (RenderTargetObj.mk (fb.nextName + 2) RTKind.typeRenderBuffer fmt
          samples w2 h2) ∧
       fb.nextName + 2 ≠ fb.nextName + 1 ∧
       ((fb.AttachRenderbuffer att fmt w h samples).recreateIfNeeded
          att w2 h2).attachLog =
        (att, fb.nextName + 2) :: (att, fb.nextName + 1) :: fb.attachLog) ∧
      (lookupA (fb.AttachTexture att fmt w h).mRenderbuffers att =
        some (RenderTargetObj.mk (fb.nextName + 1) RTKind.typeTexture fmt 0
          w h) ∧
       (fb.AttachTexture att fmt w h).recreateIfNeeded att w h =
        fb.AttachTexture att fmt w h ∧
       lookupA ((fb.AttachTexture att fmt w h).recreateIfNeeded
          att w2 h2).mRenderbuffers att =
        some (RenderTargetObj.mk (fb.nextName + 2) RTKind.typeTexture fmt 0
          w2 h2)) := by
  intro fb att fmt w h samples w2 h2 hnone hne
  have hA := AttachRenderbuffer_first fb att fmt w h samples hnone
  have hT := AttachTexture_first fb att fmt w h hnone
  have hl1 : lookupA (fb.AttachRenderbuffer att fmt w h samples).mRenderbuffers
      att = some (RenderTargetObj.mk (fb.nextName + 1)
        RTKind.typeRenderBuffer fmt samples w h) := by
    rw [hA]
    exact lookupA_insertA_self _ _ _
  have hlT : lookupA (fb.AttachTexture att fmt w h).mRenderbuffers att =
      some (RenderTargetObj.mk (fb.nextName + 1) RTKind.typeTexture fmt 0
        w h) := by
    rw [hT]
    exact lookupA_insertA_self _ _ _
  have hp1 : lookupA (fb.AttachRenderbuffer att fmt w h samples).mRbParams
      att = some (RTParams.mk RTKind.typeRenderBuffer fmt samples) := by
    rw [hA]
    exact lookupA_insertA_self _ _ _
  have hpT : lookupA (fb.AttachTexture att fmt w h).mRbParams att =
      some (RTParams.mk RTKind.typeTexture fmt 0) := by
    rw [hT]
    exact lookupA_insertA_self _ _ _
  have hdim : w ≠ w2 ∨ h ≠ h2 := by tauto
  have hR := recreateIfNeeded_stale (fb.AttachRenderbuffer att fmt w h samples)
    att w2 h2 _ _ hl1 hdim hp1
  have hRT := recreateIfNeeded_stale (fb.AttachTexture att fmt w h)
    att w2 h2 _ _ hlT hdim hpT
  refine ⟨⟨hl1, recreateIfNeeded_noop _ att _ hl1, ?_, by omega, ?_⟩,
    hlT, recreateIfNeeded_noop _ att _ hlT, ?_⟩
  · rw [hR, hA]
    exact lookupA_insertA_self _ _ _
  · rw [hR, hA]
  · rw [hRT, hT]
    exact lookupA_insertA_self _ _ _

/-- C5 (witness): the theorem applied to a fresh framebuffer, the
`GL_COLOR_ATTACHMENT0`/`GL_RGBA16F` multisampled attachment of
`Renderer::initialize` at 1280×720, then resized to 640×360. -/
theorem attachment_resize_semantics_witness :
    lookupA (FramebufferH.mk 1 [] [] 1 []).mRenderbuffers 36064 = none ∧
    ¬(640 = 1280 ∧ 360 = 720) ∧
    lookupA (((FramebufferH.mk 1 [] [] 1 []).AttachRenderbuffer 36064 34842
        1280 720 8).recreateIfNeeded 36064 640 360).mRenderbuffers 36064 =
      some (RenderTargetObj.mk 3 RTKind.typeRenderBuffer 34842 8 640 360) :=
  ⟨rfl, by omega,
    ((attachment_resize_semantics (FramebufferH.mk 1 [] [] 1 []) 36064 34842
      1280 720 8 640 360 rfl (by omega)).1).2.2.1⟩

/-- C6: in every rendered frame the shading-uniform light loop writes all
light slots: each slot's direction is the configured direction, its radiance
the configured radiance when enabled and the zero vector when disabled; with
every light disabled all radiance entries are zero while the directions
retain their configured values. -/
theorem light_slots_always_written :
    ∀ lights : Fin NumLights → Light,
      (∀ i, (renderLightSlots lights i).direction = vec4of (lights i).direction 0 ∧
        (renderLightSlots lights i).radiance =
          (if (lights i).enabled then vec4of (lights i).radiance 0 else vec4zero)) ∧
      ((∀ j, (lights j).enabled = false) →
        ∀ i, (renderLightSlots lights i).radiance = vec4zero ∧
          (renderLightSlots lights i).direction = vec4of (lights i).direction 0) := by
  intro lights
  refine ⟨fun i => ⟨rfl, rfl⟩, fun hoff i => ⟨?_, rfl⟩⟩
  simp [renderLightSlots, hoff i]

/-- C6 (witness): the theorem applied to the application's configured lights,
all three disabled. -/
theorem light_slots_always_written_witness :
    (∀ j, (appLights j).enabled = false) ∧
    ∀ i, (renderLightSlots appLights i).radiance = vec4zero :=
  ⟨by decide, fun i => ((light_slots_always_written appLights).2 (by decide) i).1⟩

/-- C7: for every GPU handle type, the moved-from handle of a move
construction reports not-usable (its identifier is zeroed), and the moved-to
handle's usability equals the source's pre-move usability. -/
theorem move_ctor_transfers_usability :
    ∀ (s : ShaderH) (p : ShaderProgramH) (r : RenderTargetH) (t : TextureH)
      (rb : RenderbufferH) (e : EnvironmentH) (fb : FramebufferH)
      (u : UniformBufferH) (m : MeshGeometryH),
      (s.moveCtor.2.IsUsable = false ∧ s.moveCtor.1.IsUsable = s.IsUsable) ∧
      (p.moveCtor.2.IsUsable = false ∧ p.moveCtor.1.IsUsable = p.IsUsable) ∧
      (r.moveCtor.2.IsUsable = false ∧ r.moveCtor.1.IsUsable = r.IsUsable) ∧
      (t.moveCtor.2.IsUsable = false ∧ t.moveCtor.1.IsUsable = t.IsUsable) ∧
      (rb.moveCtor.2.IsUsable = false ∧ rb.moveCtor.1.IsUsable = rb.IsUsable) ∧
      (e.moveCtor.2.IsUsable = false ∧ e.moveCtor.1.IsUsable = e.IsUsable) ∧
      (fb.moveCtor.2.usable = false ∧ fb.moveCtor.1.usable = fb.usable) ∧
      (u.moveCtor.2.usable = false ∧ u.moveCtor.1.usable = u.usable) ∧
      (m.moveCtor.2.usable = false ∧ m.moveCtor.1.usable = m.usable) :=
  fun _ _ _ _ _ _ _ _ _ =>
    ⟨⟨rfl, rfl⟩, ⟨rfl, rfl⟩, ⟨rfl, rfl⟩, ⟨rfl, rfl⟩, ⟨rfl, rfl⟩, ⟨rfl, rfl⟩,
      ⟨rfl, rfl⟩, ⟨rfl, rfl⟩, ⟨rfl, rfl⟩⟩

/-- C8 (counterexample): the claim "a default-constructed handle is never
usable" fails for `Renderbuffer` and `Framebuffer`: their default
constructors call `glCreateRenderbuffers` / `glCreateFramebuffers`, so the
freshly constructed handle already holds a nonzero name and is usable. -/
theorem default_renderbuffer_usable_counterexample :
    (RenderbufferH.defaultCtor 0).IsUsable = true ∧
    (FramebufferH.defaultCtor 0).usable = true :=
  ⟨rfl, rfl⟩

/-- C8 (amended): for every GPU handle type, calling Release twice leaves
the handle in the state of calling it once (releasing an already-empty
handle is a no-op); a default-constructed handle is never usable for the
shader-program, render-target, texture, environment, uniform-buffer and
mesh-geometry types, but the `Renderbuffer` and `Framebuffer` default
constructors allocate the GL object immediately, so those two
default-constructed handles are usable. -/
theorem release_idempotent_default_usability :
    ∀ (s : ShaderH) (p : ShaderProgramH) (r : RenderTargetH) (t : TextureH)
      (rb : RenderbufferH) (e : EnvironmentH) (fb : FramebufferH)
      (u : UniformBufferH) (m : MeshGeometryH) (fresh : ℕ),
      s.Release.Release = s.Release ∧
      p.Release.Release = p.Release ∧
      r.Release.Release = r.Release ∧
      t.Release.Release = t.Release ∧
      rb.Release.Release = rb.Release ∧
      e.Release.Release = e.Release ∧
      fb.Release.Release = fb.Release ∧
      u.Release.Release = u.Release ∧
      m.Release.Release = m.Release ∧
      ShaderProgramH.default.IsUsable = false ∧
      RenderTargetH.default.IsUsable = false ∧
      TextureH.default.IsUsable = false ∧
      EnvironmentH.default.IsUsable = false ∧
      UniformBufferH.default.usable = false ∧
      MeshGeometryH.default.usable = false ∧
      (RenderbufferH.defaultCtor fresh).IsUsable = true ∧
      (FramebufferH.defaultCtor fresh).usable = true := by
  intro s p r t rb e fb u m fresh
  have htex : ∀ t : TextureH, t.Release.Release = t.Release := by
    intro t
    by_cases h : t.base.mId = 0 <;>
      simp [TextureH.Release, RenderTargetH.Release, h]
  have hrb : ∀ r : RenderbufferH, r.Release.Release = r.Release := by
    intro r
    by_cases h : r.base.mId = 0 <;>
      simp [RenderbufferH.Release, RenderTargetH.Release, h]
  have hfbr : ∀ fb : FramebufferH, fb.Release.Release = fb.Release := by
    intro fb
    by_cases h : fb.mId = 0 <;> simp [FramebufferH.Release, h]
  have hzero : ∀ x : ℕ, (if x != 0 then 0 else x) = 0 := by
    intro x
    by_cases h : x = 0 <;> simp [h]
  have hmg : ∀ m : MeshGeometryH, m.Release.Release = m.Release := by
    intro m
    simp [MeshGeometryH.Release, hzero]
  refine ⟨rfl, rfl, rfl, htex t, hrb rb, ?_, hfbr fb, rfl, hmg m, rfl, rfl,
    rfl, rfl, rfl, rfl, ?_, ?_⟩
  · simp [EnvironmentH.Release, htex]
  · simp [RenderbufferH.defaultCtor, RenderbufferH.IsUsable,
      RenderTargetH.IsUsable]
  · simp [FramebufferH.defaultCtor, FramebufferH.usable]

/-- Closed form of the prefilter loop: starting at `level` with the current
`size`, the remaining iterations produce one dispatch per level up to `L`,
with the size halved once per step. -/
theorem prefilterFrom_eq (L : ℕ) (dr : ℚ) :
    ∀ (fuel level size : ℕ), L + 1 - level ≤ fuel →
      prefilterFrom L dr level size fuel =
        (List.range (L + 1 - level)).map (fun i =>
          Dispatch.mk (level + i) (((level + i : ℕ) : ℚ) * dr)
            (max 1 (size / 2 ^ i / 32)) (max 1 (size / 2 ^ i / 32)) 6) := by
  intro fuel
  induction fuel with
  | zero =>
    intro level size hf
    have h0 : L + 1 - level = 0 := Nat.le_zero.mp hf
    simp [prefilterFrom, h0]
  | succ fuel ih =>
    intro level size hf
    by_cases hle : level ≤ L
    · have h2 : L + 1 - (level + 1) ≤ fuel := by omega
      have h1 : L + 1 - level = (L - level) + 1 := by omega
      have h3 : L + 1 - (level + 1) = L - level := by omega
      rw [prefilterFrom, if_pos hle, ih (level + 1) (size / 2) h2, h3, h1,
        List.range_succ_eq_map, List.map_cons, List.map_map]
      refine congrArg₂ List.cons ?_ ?_
      · simp
      · congr 1
        funext i
        have hn : level + 1 + i = level + (i + 1) := by omega
        have hs : size / 2 / 2 ^ i = size / 2 ^ (i + 1) := by
          rw [Nat.div_div_eq_div_mul, ← pow_succ']
        simp [Function.comp, hn, hs, Nat.succ_eq_add_one]
    · have h0 : L + 1 - level = 0 := by omega
      rw [prefilterFrom, if_neg hle, h0]
      simp

/-- C1: in the `Environment` constructor's specular prefilter step, for an
environment cubemap with `L` total levels the loop dispatches exactly the
per-level sequence the claim describes: levels 1..L, roughness
`level × 1/(L−1)` with L−1 floored to at least 1, a grid of
`(max(1, levelSize/32), max(1, levelSize/32), 6)` workgroups, and
`levelSize` starting at half the base face size and halving each level. -/
theorem specular_prefilter_matches_spec :
    ∀ L : ℕ, specularPrefilterDispatches L = specClaimPrefilter L := by
  intro L
  unfold specularPrefilterDispatches specClaimPrefilter
  rw [prefilterFrom_eq L (deltaRoughness L) (L + 1) 1 (kEnvMapSize / 2)
    (by omega)]
  have h1 : L + 1 - 1 = L := by omega
  rw [h1]
  congr 1
  funext i
  have hn : 1 + i = i + 1 := by omega
  simp [hn, deltaRoughness]

end Ave3d
